import Mathlib

/-!
Verification of the simpleconsole command framework: a shallow embedding of
the command execution lifecycle (standalone.py, base.py, load.py) and the
daemon process-lifecycle manager (daemon.py), with theorems settling the
specified behavioral claims.

Conventions of the embedding:
  * Python exceptions become constructors of PyErr; a fallible Python
    function returns Except PyErr.
  * A Python function that falls off its end returns None; its value type
    here is Option String with value none.
  * Filesystem and OS effects of the daemon operations are threaded through
    an explicit Daemon state record, and each operation additionally emits
    a trace of the externally visible events it performs, in order.
-/

namespace SimpleConsole

/-- Python exception values relevant to the framework: ConsoleError
(standalone.py / daemon.py), CommandError (base.py), and the builtin
ValueError and NameError, each carrying its message string. -/
inductive PyErr where
  | consoleError (msg : String)
  | commandError (msg : String)
  | valueError (msg : String)
  | nameError (msg : String)
  | typeError (msg : String)
  deriving DecidableEq

/-- The message carried by an exception, as str(e) renders it. -/
def PyErr.msg : PyErr → String
  | .consoleError m => m
  | .commandError m => m
  | .valueError m => m
  | .nameError m => m
  | .typeError m => m

/-- Python truthiness of an optional string: None and the empty string are
falsy, every other string is truthy. -/
def pyTruthy : Option String → Bool
  | none => false
  | some s => !s.isEmpty

/-- Helper for pyFind: scan the haystack from index i for the needle. -/
def pyFindAux (sub : List Char) : List Char → Nat → Int
  | [], i => if sub = [] then (i : Int) else -1
  | c :: rest, i =>
      if sub.isPrefixOf (c :: rest) then (i : Int) else pyFindAux sub rest (i + 1)

/-- Python str.find: lowest index at which sub occurs in s, or -1. -/
def pyFind (s sub : String) : Int := pyFindAux sub.data s.data 0

/-- Python repr of a string (quotes around the text; escaping of special
characters inside is not needed by any message the program builds). -/
def pyStrRepr (s : String) : String := "\x27" ++ s ++ "\x27"

/-- Python % formatting of a format string holding a single %s directive
against a TUPLE of strings, as evaluated in the arity branch of
DaemonProgram.handle: a one-element tuple substitutes its element after
the prefix; an empty tuple raises TypeError (not enough arguments for the
format string); two or more elements raise TypeError (not all arguments
converted). -/
def pyFormatS (fmtPrefix : String) (args : List String) :
    Except PyErr String :=
  match args with
  | [a] => .ok (fmtPrefix ++ a)
  | [] => .error (.typeError "not enough arguments for format string")
  | _ =>
      .error (.typeError "not all arguments converted during string formatting")

/-- Whitespace for Python str.strip: space, tab, newline, carriage
return, vertical tab and form feed. -/
def isPySpace (c : Char) : Bool :=
  c = ' ' || c = Char.ofNat 9 || c = Char.ofNat 10 || c = Char.ofNat 13
    || c = Char.ofNat 11 || c = Char.ofNat 12

/-- Drop leading Python whitespace from a character list. -/
def dropPySpace : List Char → List Char
  | [] => []
  | c :: cs => if isPySpace c then dropPySpace cs else c :: cs

/-- Python str.strip(): remove whitespace from both ends. -/
def pyStrip (s : String) : String :=
  ⟨(dropPySpace (dropPySpace s.data).reverse).reverse⟩

/-- Decimal value of a digit run, none when a non-digit appears. -/
def digitsValAux : List Char → Nat → Option Nat
  | [], acc => some acc
  | c :: cs, acc =>
      if c.isDigit then digitsValAux cs (acc * 10 + (c.toNat - 48)) else none

/-- Python int() applied to a stripped string: an optional sign followed
by at least one decimal digit; anything else raises ValueError, rendered
here as none. -/
def pyInt? (s : String) : Option Int :=
  match (pyStrip s).data with
  | [] => none
  | c :: ds =>
      if c = Char.ofNat 45 then
        match ds with
        | [] => none
        | _ => (digitsValAux ds 0).map (fun n => -(n : Int))
      else if c = Char.ofNat 43 then
        match ds with
        | [] => none
        | _ => (digitsValAux ds 0).map (fun n => (n : Int))
      else (digitsValAux (c :: ds) 0).map (fun n => (n : Int))

/-- An OSError as raised by os.kill: errno and the strerror text. -/
structure OSErr where
  errno : Nat
  strerror : String
  deriving DecidableEq

/-- Python str() of an OSError: "[Errno N] strerror". -/
def OSErr.pyStr (e : OSErr) : String :=
  "[Errno " ++ toString e.errno ++ "] " ++ e.strerror

/-- Number of newline characters in a stream of written text. -/
def newlineCount (s : String) : Nat := s.data.count (Char.ofNat 10)

/-- The error style applied by self.style.ERROR. With the NoColorPalette
(selected by color_style() whenever stdout is not a tty, the situation of
every non-interactive run) colorize adds no codes, so ERROR is the
identity on its text. -/
def styleERROR (s : String) : String := s

/-- The class name used on the final line of a printed traceback. -/
def PyErr.className : PyErr → String
  | .consoleError _ => "ConsoleError"
  | .commandError _ => "CommandError"
  | .valueError _ => "ValueError"
  | .nameError _ => "NameError"
  | .typeError _ => "TypeError"

/-- Text written to the error stream by traceback.print_exc(): a
multi-line diagnostic trace, beginning with the fixed header line and
ending with the exception class and message. The frame lines in between
depend on the call site and are collapsed in this model; the trace is in
every case more than one line. -/
def printExc (e : PyErr) : String :=
  "Traceback (most recent call last):\n" ++ e.className ++ ": " ++ e.msg ++ "\n"

/-! ## Daemon state and event traces (daemon.py) -/

/-- Externally visible events performed by the daemon lifecycle
operations, in program order. -/
inductive Ev where
  | fork1
  | decouple
  | fork2
  | testpidWrite
  | testpidRemove
  | flushStd
  | redirect
  | registerCleanup
  | writePid (pid : Nat)
  | kill (pid : Int)
  | sleep
  | removePid
  | handleDaemon
  deriving DecidableEq

/-- The state a DaemonProgram invocation runs against. pidContent is the
content of the pidfile when it can be opened for reading (none when the
file is absent or unreadable, the cases where open raises IOError);
writable says whether opening the pidfile path for writing succeeds;
writeErrStr is the IOError text when it does not. selfPid is os.getpid()
in the daemonized child. The kill behavior of the OS is given by killOk,
the number of SIGTERM deliveries that succeed before one fails, and
killErr, the OSError raised by that failing delivery. hdRet is the value
returned by the subclass hook handle_daemon. -/
structure Daemon where
  path : String
  pidContent : Option String
  writable : Bool
  writeErrStr : String
  selfPid : Nat
  killOk : Nat
  killErr : OSErr
  hdRet : Option String
  deriving DecidableEq

/-- Result of one daemon lifecycle operation: the returned value or the
exception escaping it, the events performed, and the state afterwards. -/
abbrev DRes := Except PyErr (Option String) × List Ev × Daemon

/-- DaemonProgram.getpid: open the pidfile for reading and parse
int(content.strip()). IOError (absent or unreadable file) is caught and
yields None; non-integer content raises ValueError out of int(), which is
not caught. -/
def getpid (s : Daemon) : Except PyErr (Option Int) :=
  match s.pidContent with
  | none => .ok none
  | some content =>
      match pyInt? content with
      | some n => .ok (some n)
      | none =>
          .error (.valueError
            ("invalid literal for int() with base 10: " ++ pyStrRepr (pyStrip content)))

/-- DaemonProgram.testpid: write a sentinel line to the pidfile and remove
it again; an IOError becomes ConsoleError. The sentinel write followed by
the removal leaves no pidfile behind. -/
def testpid (s : Daemon) : Except PyErr Unit × List Ev × Daemon :=
  if s.writable then
    (.ok (), [.testpidWrite, .testpidRemove], { s with pidContent := none })
  else
    (.error (.consoleError
      ("Cannot write to pidfile " ++ s.path ++ ": " ++ s.writeErrStr)),
     [], s)

/-- DaemonProgram.daemonize, followed along the surviving grandchild: two
forks with the intermediate parents exiting, decoupling from the parent
environment, then testpid, then flushing and redirecting the standard
streams, registering the atexit cleanup, and writing the grandchild pid
plus newline to the pidfile. -/
def daemonize (s : Daemon) : Except PyErr Unit × List Ev × Daemon :=
  match testpid s with
  | (.error e, evs, s1) => (.error e, [.fork1, .decouple, .fork2] ++ evs, s1)
  | (.ok _, evs, s1) =>
      (.ok (),
       [.fork1, .decouple, .fork2] ++ evs
         ++ [.flushStd, .redirect, .registerCleanup, .writePid s.selfPid],
       { s1 with pidContent := some (toString s.selfPid ++ "\n") })

/-- DaemonProgram.start: if getpid() is not None, raise ConsoleError that a
pidfile already exists; otherwise daemonize and call handle_daemon,
discarding its value (start itself returns None). -/
def start (s : Daemon) : DRes :=
  match getpid s with
  | .error e => (.error e, [], s)
  | .ok (some _) =>
      (.error (.consoleError
        ("A pidfile " ++ s.path
          ++ " already exists. Perhaps the Daemon is already running?")),
       [], s)
  | .ok none =>
      match daemonize s with
      | (.error e, evs, s1) => (.error e, evs, s1)
      | (.ok _, evs, s1) => (.ok none, evs ++ [.handleDaemon], s1)

/-- Events of the while-True kill loop of stop: n delivered SIGTERMs each
followed by a 0.1s sleep, then the delivery that raises OSError. -/
def killLoop (pid : Int) : Nat → List Ev
  | 0 => [.kill pid]
  | n + 1 => .kill pid :: .sleep :: killLoop pid n

/-- DaemonProgram.stop: if getpid() is None, raise ConsoleError that the
pidfile does not exist; otherwise send SIGTERM to the pid every 0.1s until
delivery raises OSError. When str(error).find of the no-such-process text
is positive, remove the pidfile if it still exists and return; otherwise
re-raise the OS message as ConsoleError, leaving the pidfile untouched. -/
def stop (s : Daemon) : DRes :=
  match getpid s with
  | .error e => (.error e, [], s)
  | .ok none =>
      (.error (.consoleError
        ("The pidfile " ++ s.path
          ++ " does not exist. Perhaps the Daemon is not running?")),
       [], s)
  | .ok (some pid) =>
      let evs := killLoop pid s.killOk
      if pyFind s.killErr.pyStr "No such process" > 0 then
        if s.pidContent.isSome then
          (.ok none, evs ++ [.removePid], { s with pidContent := none })
        else
          (.ok none, evs, s)
      else
        (.error (.consoleError s.killErr.pyStr), evs, s)

/-- DaemonProgram.restart: stop then start with the same options; an
exception from stop propagates before start is reached. -/
def restart (s : Daemon) : DRes :=
  match stop s with
  | (.error e, evs, s1) => (.error e, evs, s1)
  | (.ok _, evs, s1) =>
      match start s1 with
      | (r, evs2, s2) => (r, evs ++ evs2, s2)

/-- DaemonProgram.handle: the start/stop/restart jumptable. With one
argument in the table, dispatch to the method, passing the options
through; with one argument outside the table, ConsoleError naming it.
With other than exactly one positional argument, the code attempts to
build a ConsoleError message with a percent-format of the args tuple:
because args is a tuple of length other than one, that format operation
itself raises TypeError, so the ConsoleError is never constructed and the
TypeError escapes instead. -/
def DaemonProgram.handle (args : List String) (s : Daemon) : DRes :=
  match args with
  | [a] =>
      if a = "start" then start s
      else if a = "stop" then stop s
      else if a = "restart" then restart s
      else
        (.error (.consoleError
          ("Unknown Daemon arg \x27" ++ a ++ "\x27 as command argument")),
         [], s)
  | _ =>
      match pyFormatS "Expected only Daemon argument - " args with
      | .error e => (.error e, [], s)
      | .ok m => (.error (.consoleError m), [], s)

/-! ## The execute envelopes (standalone.py and daemon.py) -/

/-- What an execute call leaves behind when it returns or exits: the text
written to the output stream, the text written to the error stream, and
the argument of sys.exit when it was called. -/
structure ExecOut where
  out : String
  err : String
  exitCode : Option Nat
  deriving DecidableEq

/-- ConsoleProgram.execute of standalone.py, as a function of the outcome
of self.handle. Truthy output is written to the output stream as is.
ConsoleError is caught: with the traceback option the diagnostic trace is
printed to the error stream, otherwise the styled one-line message is;
either way sys.exit(1). Any other exception propagates. -/
def ConsoleProgram.execute (tb : Bool) (h : Except PyErr (Option String)) :
    Except PyErr ExecOut :=
  match h with
  | .ok output =>
      if pyTruthy output then .ok ⟨output.getD "", "", none⟩
      else .ok ⟨"", "", none⟩
  | .error (.consoleError m) =>
      if tb then .ok ⟨"", printExc (.consoleError m), some 1⟩
      else .ok ⟨"", styleERROR ("Error: " ++ m ++ "\n"), some 1⟩
  | .error e => .error e

/-- DaemonProgram.execute of daemon.py, as a function of the outcome of
self.handle. Truthy output is written to the output stream followed by a
newline and a flush. ConsoleError is caught: the diagnostic trace is
printed when the traceback option is set, and the styled one-line message
is written in every case (the write is not under an else), then
sys.exit(1). Any other exception propagates. -/
def DaemonProgram.execute (tb : Bool) (h : Except PyErr (Option String)) :
    Except PyErr ExecOut :=
  match h with
  | .ok output =>
      if pyTruthy output then .ok ⟨output.getD "" ++ "\n", "", none⟩
      else .ok ⟨"", "", none⟩
  | .error (.consoleError m) =>
      .ok ⟨"",
           (if tb then printExc (.consoleError m) else "")
             ++ styleERROR ("Error: " ++ m ++ "\n"),
           some 1⟩
  | .error e => .error e

/-! ## LabelCommand (base.py) -/

/-- LabelCommand.handle of base.py. The parameter is spelled lables while
the body reads labels, a name that is neither local nor global, so the
very first statement of every call raises NameError before any argument
check or hook call can happen. -/
def LabelCommand.handle (lables : List String) : Except PyErr String :=
  .error (.nameError "global name \x27labels\x27 is not defined")

/-! ## FilePathCommand (load.py) -/

/-- FilePathCommand.check_path: whether opening the path for reading
succeeds, with the readability of paths supplied by the environment. -/
def check_path (readable : String → Bool) (path : String) : Bool :=
  readable path

/-- The per-path loop of FilePathCommand.handle: an unreadable path
contributes the fixed diagnostic line and the loop continues; a readable
path is given to handle_path and a truthy result is appended. -/
def FilePathCommand.lines (readable : String → Bool)
    (hook : String → Option String) (label : String) :
    List String → List String
  | [] => []
  | p :: ps =>
      if !(check_path readable p) then
        (p ++ " is not a valid " ++ label ++ ".")
          :: FilePathCommand.lines readable hook label ps
      else
        match hook p with
        | some o =>
            if !o.isEmpty then o :: FilePathCommand.lines readable hook label ps
            else FilePathCommand.lines readable hook label ps
        | none => FilePathCommand.lines readable hook label ps

/-- FilePathCommand.handle of load.py: CommandError when no path was
given, otherwise the per-path outcomes plus a final empty entry joined
with newlines. -/
def FilePathCommand.handle (readable : String → Bool)
    (hook : String → Option String) (label : String) (paths : List String) :
    Except PyErr String :=
  if paths.isEmpty then
    .error (.commandError ("Provide at least one " ++ label ++ "."))
  else
    .ok (String.intercalate "\n"
      (FilePathCommand.lines readable hook label paths ++ [""]))

/-! ## Specification-side composition and sample states -/

/-- Written from the specification sentence for restart: sequential
composition that calls stop then start with the same options, and fails
without attempting start when stop fails. Compared against
DaemonProgram.restart. -/
def stopThenStartSpec (s : Daemon) : DRes :=
  match stop s with
  | (.error e, evs, s1) => (.error e, evs, s1)
  | (.ok _, evs, s1) =>
      let r := start s1
      (r.1, evs ++ r.2.1, r.2.2)

/-- The pidfile path of the sample states used by witnesses. -/
def samplePath : String := "/var/run/test.pid"

/-- Sample state: a pidfile holding pid 12 exists, kill delivery fails
with no-such-process after two delivered signals. -/
def sRunning : Daemon :=
  ⟨samplePath, some "12", true, "", 4242, 2, ⟨3, "No such process"⟩, none⟩

/-- Sample state: no pidfile; the path is writable. -/
def sStopped : Daemon :=
  ⟨samplePath, none, true, "Permission denied", 4242, 0,
   ⟨3, "No such process"⟩, none⟩

/-- Sample state: no pidfile and the path is not writable. -/
def sUnwritable : Daemon := { sStopped with writable := false }

/-- Sample state: the pidfile exists but holds non-integer content. -/
def sGarbage : Daemon := { sStopped with pidContent := some "garbage" }

/-- Sample state: a pidfile holding pid 12 exists, but kill delivery
fails with an error other than no-such-process. -/
def sBadKill : Daemon :=
  { sRunning with killErr := ⟨1, "Operation not permitted"⟩ }

end SimpleConsole

namespace SimpleConsole

/-! ## Theorems -/

/-- C6: the claim says the label variant raises CommandError on zero
arguments and calls handle_label once per argument otherwise. The code
cannot do either: LabelCommand.handle names its parameter lables but its
body reads labels, so every invocation, with or without arguments, raises
NameError before any argument count check or hook call. -/
theorem claim6_label_handle_raises_nameError (l : List String) :
    LabelCommand.handle l =
      .error (.nameError "global name \x27labels\x27 is not defined") := rfl

/-- C5: restart is the sequential composition of stop and start with the
same options, and when stop raises, restart propagates exactly the outcome
of stop: same exception, same events (so no fork or any other start event
has happened), same state. -/
theorem claim5_restart_is_stop_then_start (s : Daemon) :
    restart s = stopThenStartSpec s ∧
    (∀ e : PyErr, (stop s).1 = .error e → restart s = stop s) := by
  constructor
  · unfold restart stopThenStartSpec
    rcases h : stop s with ⟨r, evs, s1⟩
    cases r <;> rfl
  · intro e he
    unfold restart
    rcases h : stop s with ⟨r, evs, s1⟩
    rw [h] at he
    simp only at he
    subst he
    rfl

/-- C5 witness: on the sample state with no pidfile, stop raises
ConsoleError and restart returns exactly the outcome of stop. -/
theorem claim5_witness :
    (stop sStopped).1 =
      .error (.consoleError
        ("The pidfile " ++ samplePath
          ++ " does not exist. Perhaps the Daemon is not running?")) ∧
    restart sStopped = stop sStopped := by
  refine ⟨rfl, ?_⟩
  exact (claim5_restart_is_stop_then_start sStopped).2
    (.consoleError
      ("The pidfile " ++ samplePath
        ++ " does not exist. Perhaps the Daemon is not running?")) rfl

/-- C7 counterexample: the claim says zero or two-plus positional
arguments raise ConsoleError naming the offending arguments. The percent
format of the args tuple in the arity branch raises TypeError before the
ConsoleError is constructed, and the daemon execute does not catch it. -/
theorem claim7_counterexample :
    DaemonProgram.handle [] sRunning =
      (.error (.typeError "not enough arguments for format string"),
       [], sRunning) ∧
    DaemonProgram.handle ["start", "extra"] sRunning =
      (.error (.typeError "not all arguments converted during string formatting"),
       [], sRunning) ∧
    DaemonProgram.execute false
        (.error (.typeError "not enough arguments for format string")) =
      .error (.typeError "not enough arguments for format string") :=
  ⟨rfl, rfl, rfl⟩

/-- C7 amended: with the single argument start, stop or restart the
dispatch is exactly the corresponding operation with the options passed
through, and any other single argument raises ConsoleError naming it.
With zero positional arguments handle raises TypeError (not enough
arguments for format string) and with two or more it raises TypeError
(not all arguments converted), because the percent format of the args
tuple fails before the intended ConsoleError exists; the daemon execute
catches only ConsoleError, so these TypeErrors propagate. -/
theorem claim7_daemon_dispatch (s : Daemon) (args : List String)
    (a : String) (tb : Bool) :
    (args = [] →
      DaemonProgram.handle args s =
        (.error (.typeError "not enough arguments for format string"),
         [], s)) ∧
    (2 ≤ args.length →
      DaemonProgram.handle args s =
        (.error (.typeError "not all arguments converted during string formatting"),
         [], s)) ∧
    DaemonProgram.handle ["start"] s = start s ∧
    DaemonProgram.handle ["stop"] s = stop s ∧
    DaemonProgram.handle ["restart"] s = restart s ∧
    (a ≠ "start" → a ≠ "stop" → a ≠ "restart" →
      DaemonProgram.handle [a] s =
        (.error (.consoleError
          ("Unknown Daemon arg \x27" ++ a ++ "\x27 as command argument")),
         [], s)) ∧
    DaemonProgram.execute tb
        (.error (.typeError "not enough arguments for format string")) =
      .error (.typeError "not enough arguments for format string") ∧
    DaemonProgram.execute tb
        (.error (.typeError "not all arguments converted during string formatting")) =
      .error (.typeError "not all arguments converted during string formatting") := by
  refine ⟨?_, ?_, rfl, rfl, rfl, ?_, rfl, rfl⟩
  · intro h
    subst h
    rfl
  · intro h
    match args with
    | [] => exact absurd h (by simp)
    | [x] => exact absurd h (by simp)
    | x :: y :: rest => rfl
  · intro h1 h2 h3
    simp only [DaemonProgram.handle, if_neg h1, if_neg h2, if_neg h3]

/-- C7 witness: zero arguments raise the not-enough-arguments TypeError,
two arguments raise the not-all-converted TypeError, and the unknown
single argument status raises ConsoleError naming it. -/
theorem claim7_witness :
    ([] : List String) = [] ∧
    DaemonProgram.handle [] sStopped =
      (.error (.typeError "not enough arguments for format string"),
       [], sStopped) ∧
    2 ≤ (["start", "extra"] : List String).length ∧
    DaemonProgram.handle ["start", "extra"] sStopped =
      (.error (.typeError "not all arguments converted during string formatting"),
       [], sStopped) ∧
    ("status" : String) ≠ "start" ∧
    DaemonProgram.handle ["status"] sStopped =
      (.error (.consoleError
        ("Unknown Daemon arg \x27status\x27 as command argument")),
       [], sStopped) := by
  have h1 := claim7_daemon_dispatch sStopped [] "status" false
  have h2 := claim7_daemon_dispatch sStopped ["start", "extra"] "status" false
  exact ⟨rfl, h1.1 rfl, by decide, h2.2.1 (by decide), by decide,
    h1.2.2.2.2.2.1 (by decide) (by decide) (by decide)⟩

/-- Outcome of daemonize when the pidfile path is not writable: the
ConsoleError from testpid escapes after the forks and the decoupling,
with no redirection, registration or pidfile write. -/
lemma daemonize_fail (s : Daemon) (hw : s.writable = false) :
    daemonize s =
      (.error (.consoleError
        ("Cannot write to pidfile " ++ s.path ++ ": " ++ s.writeErrStr)),
       [.fork1, .decouple, .fork2], s) := by
  unfold daemonize testpid
  rw [hw]
  rfl

/-- Outcome of daemonize when the pidfile path is writable: the full
event sequence and the pidfile holding the grandchild pid plus newline. -/
lemma daemonize_ok (s : Daemon) (hw : s.writable = true) :
    daemonize s =
      (.ok (),
       [.fork1, .decouple, .fork2, .testpidWrite, .testpidRemove,
        .flushStd, .redirect, .registerCleanup, .writePid s.selfPid],
       { s with pidContent := some (toString s.selfPid ++ "\n") }) := by
  unfold daemonize testpid
  rw [hw]
  rfl

/-- C4: within daemonize, the pidfile-writability check runs before the
stream redirection, the cleanup registration and the pidfile write. When
the check fails a ConsoleError escapes and the trace holds no
redirection, registration or pidfile-write event and the state is
untouched; when it succeeds the trace splits into a prefix holding the
sentinel write and removal and a suffix holding redirection, registration
and the pidfile write. -/
theorem claim4_testpid_before_commitment (s : Daemon) :
    (s.writable = false →
      daemonize s =
        (.error (.consoleError
          ("Cannot write to pidfile " ++ s.path ++ ": " ++ s.writeErrStr)),
         [.fork1, .decouple, .fork2], s) ∧
      Ev.redirect ∉ (daemonize s).2.1 ∧
      Ev.registerCleanup ∉ (daemonize s).2.1 ∧
      (∀ p : Nat, Ev.writePid p ∉ (daemonize s).2.1)) ∧
    (s.writable = true →
      daemonize s =
        (.ok (),
         [.fork1, .decouple, .fork2, .testpidWrite, .testpidRemove,
          .flushStd, .redirect, .registerCleanup, .writePid s.selfPid],
         { s with pidContent := some (toString s.selfPid ++ "\n") }) ∧
      (∃ l1 l2 : List Ev, (daemonize s).2.1 = l1 ++ l2 ∧
        Ev.testpidWrite ∈ l1 ∧ Ev.testpidRemove ∈ l1 ∧
        Ev.redirect ∈ l2 ∧ Ev.registerCleanup ∈ l2 ∧
        Ev.writePid s.selfPid ∈ l2)) := by
  constructor
  · intro hw
    have hd := daemonize_fail s hw
    refine ⟨hd, ?_, ?_, ?_⟩
    · rw [hd]; simp
    · rw [hd]; simp
    · intro p; rw [hd]; simp
  · intro hw
    have hd := daemonize_ok s hw
    refine ⟨hd, [.fork1, .decouple, .fork2, .testpidWrite, .testpidRemove],
      [.flushStd, .redirect, .registerCleanup, .writePid s.selfPid], ?_, ?_, ?_, ?_, ?_, ?_⟩
    · rw [hd]; rfl
    · simp
    · simp
    · simp
    · simp
    · simp

/-- C4 witness: the writability check fails on the unwritable sample
state before anything was redirected, registered or written, and on the
writable sample state it precedes redirection, registration and the
pidfile write in the trace. -/
theorem claim4_witness :
    (daemonize sUnwritable =
      (.error (.consoleError
        ("Cannot write to pidfile " ++ samplePath ++ ": " ++ "Permission denied")),
       [.fork1, .decouple, .fork2], sUnwritable) ∧
     Ev.redirect ∉ (daemonize sUnwritable).2.1 ∧
     Ev.registerCleanup ∉ (daemonize sUnwritable).2.1 ∧
     (∀ p : Nat, Ev.writePid p ∉ (daemonize sUnwritable).2.1)) ∧
    (daemonize sStopped =
      (.ok (),
       [.fork1, .decouple, .fork2, .testpidWrite, .testpidRemove,
        .flushStd, .redirect, .registerCleanup, .writePid 4242],
       { sStopped with pidContent := some "4242\n" }) ∧
     (∃ l1 l2 : List Ev, (daemonize sStopped).2.1 = l1 ++ l2 ∧
       Ev.testpidWrite ∈ l1 ∧ Ev.testpidRemove ∈ l1 ∧
       Ev.redirect ∈ l2 ∧ Ev.registerCleanup ∈ l2 ∧
       Ev.writePid 4242 ∈ l2)) := by
  constructor
  · exact (claim4_testpid_before_commitment sUnwritable).1 rfl
  · exact (claim4_testpid_before_commitment sStopped).2 rfl

/-- The kill loop delivers n + 1 termination signals when the OS lets n
of them through before failing. -/
lemma killLoop_count_kill (pid : Int) (n : Nat) :
    (killLoop pid n).count (Ev.kill pid) = n + 1 := by
  induction n with
  | zero => simp [killLoop]
  | succ n ih => simp [killLoop, ih]

/-- The kill loop sleeps once between consecutive delivery attempts. -/
lemma killLoop_count_sleep (pid : Int) (n : Nat) :
    (killLoop pid n).count Ev.sleep = n := by
  induction n with
  | zero => simp [killLoop]
  | succ n ih => simp [killLoop, ih]

/-- C3 counterexample: the claim says that whenever no pid can be read
from the pidfile, stop raises ConsoleError. With a readable pidfile
holding non-integer content no pid can be read, yet stop raises the
ValueError escaping int() — not a ConsoleError — and performs no kill
attempt at all. -/
theorem claim3_counterexample :
    stop sGarbage =
      (.error (.valueError
        "invalid literal for int() with base 10: \x27garbage\x27"),
       [], sGarbage) ∧
    (stop sGarbage).2.1 = [] :=
  ⟨rfl, rfl⟩

/-- C3 amended: stop with an absent or unreadable pidfile raises
ConsoleError and leaves the state untouched, creating no pidfile; with a
readable pidfile holding non-integer content it raises the uncaught
ValueError from int() without sending any signal. With a recorded pid it
signals repeatedly, sleeping between attempts, until delivery fails: when
that failure is no-such-process (ESRCH) it removes the pidfile and
returns None; when the failure is anything else it raises ConsoleError
carrying the OS message and the pidfile is untouched. -/
theorem claim3_stop_behavior (s : Daemon) (c : String) (pid : Int) :
    (s.pidContent = none →
      stop s =
        (.error (.consoleError
          ("The pidfile " ++ s.path
            ++ " does not exist. Perhaps the Daemon is not running?")),
         [], s)) ∧
    (s.pidContent = some c → pyInt? c = none →
      stop s =
        (.error (.valueError
          ("invalid literal for int() with base 10: " ++ pyStrRepr (pyStrip c))),
         [], s)) ∧
    (s.pidContent = some c → pyInt? c = some pid →
      s.killErr = ⟨3, "No such process"⟩ →
        stop s =
          (.ok none, killLoop pid s.killOk ++ [.removePid],
           { s with pidContent := none }) ∧
        (killLoop pid s.killOk).count (Ev.kill pid) = s.killOk + 1 ∧
        (killLoop pid s.killOk).count Ev.sleep = s.killOk) ∧
    (s.pidContent = some c → pyInt? c = some pid →
      pyFind s.killErr.pyStr "No such process" ≤ 0 →
        stop s =
          (.error (.consoleError s.killErr.pyStr), killLoop pid s.killOk, s)) := by
  refine ⟨?_, ?_, ?_, ?_⟩
  · intro hc
    unfold stop getpid
    rw [hc]
  · intro hc hp
    have hg : getpid s =
        .error (.valueError
          ("invalid literal for int() with base 10: " ++ pyStrRepr (pyStrip c))) := by
      unfold getpid
      rw [hc]
      simp only [hp]
    unfold stop
    rw [hg]
  · intro hc hp hk
    refine ⟨?_, killLoop_count_kill pid s.killOk, killLoop_count_sleep pid s.killOk⟩
    have hg : getpid s = .ok (some pid) := by
      unfold getpid
      rw [hc]
      simp only [hp]
    unfold stop
    rw [hg, hk]
    have hfind : pyFind (OSErr.pyStr ⟨3, "No such process"⟩) "No such process" > 0 := by
      decide
    simp [hfind, hc]
  · intro hc hp hk
    have hg : getpid s = .ok (some pid) := by
      unfold getpid
      rw [hc]
      simp only [hp]
    have hnot : ¬ pyFind s.killErr.pyStr "No such process" > 0 := by omega
    unfold stop
    rw [hg]
    simp [hnot]

/-- C3 witness: stop on the sample state with no pidfile raises the
not-running ConsoleError; on the sample state with garbage pidfile
content it raises the ValueError from int(); on the running sample state
with ESRCH on the third delivery it removes the pidfile after three
kills and two sleeps; on the sample state whose delivery fails with
EPERM it raises ConsoleError carrying the OS message and keeps the
pidfile. -/
theorem claim3_witness :
    stop sStopped =
      (.error (.consoleError
        ("The pidfile " ++ samplePath
          ++ " does not exist. Perhaps the Daemon is not running?")),
       [], sStopped) ∧
    stop sGarbage =
      (.error (.valueError
        "invalid literal for int() with base 10: \x27garbage\x27"),
       [], sGarbage) ∧
    (stop sRunning =
       (.ok none, killLoop 12 2 ++ [.removePid],
        { sRunning with pidContent := none }) ∧
     (killLoop 12 2).count (Ev.kill 12) = 3 ∧
     (killLoop 12 2).count Ev.sleep = 2) ∧
    stop sBadKill =
      (.error (.consoleError "[Errno 1] Operation not permitted"),
       killLoop 12 2, sBadKill) := by
  refine ⟨(claim3_stop_behavior sStopped "" 0).1 rfl, ?_, ?_, ?_⟩
  · exact (claim3_stop_behavior sGarbage "garbage" 0).2.1 rfl (by decide)
  · exact (claim3_stop_behavior sRunning "12" 12).2.2.1 rfl (by decide) rfl
  · exact (claim3_stop_behavior sBadKill "12" 12).2.2.2 rfl (by decide) (by decide)

/-- C2 counterexample: the claim says that with non-integer pidfile
content start treats the daemon as NOT_RUNNING and proceeds to daemonize.
On the state whose pidfile holds the text garbage, start instead lets the
ValueError out of int() escape: no fork happens, no daemonize event at
all, and handle_daemon is never reached. -/
theorem claim2_counterexample :
    start sGarbage =
      (.error (.valueError
        "invalid literal for int() with base 10: \x27garbage\x27"),
       [], sGarbage) ∧
    Ev.fork1 ∉ (start sGarbage).2.1 ∧
    Ev.handleDaemon ∉ (start sGarbage).2.1 := by
  refine ⟨rfl, ?_, ?_⟩ <;> decide

/-- C2 amended: when an integer parses from the pidfile, start raises the
already-running ConsoleError with no events and an unchanged state, so
the existing pidfile is neither corrupted nor overwritten. When the
pidfile is absent or unreadable (getpid sees IOError and yields None),
start treats the daemon as NOT_RUNNING and proceeds to daemonize and then
handle_daemon, whether or not daemonize then succeeds. When the pidfile
is readable but holds non-integer content, start raises the uncaught
ValueError from int() without daemonizing. -/
theorem claim2_start_precondition (s : Daemon) (c : String) (n : Int) :
    (s.pidContent = some c → pyInt? c = some n →
      start s =
        (.error (.consoleError
          ("A pidfile " ++ s.path
            ++ " already exists. Perhaps the Daemon is already running?")),
         [], s)) ∧
    (s.pidContent = none → s.writable = true →
      start s =
        (.ok none,
         [.fork1, .decouple, .fork2, .testpidWrite, .testpidRemove,
          .flushStd, .redirect, .registerCleanup, .writePid s.selfPid,
          .handleDaemon],
         { s with pidContent := some (toString s.selfPid ++ "\n") })) ∧
    (s.pidContent = none → s.writable = false →
      start s =
        (.error (.consoleError
          ("Cannot write to pidfile " ++ s.path ++ ": " ++ s.writeErrStr)),
         [.fork1, .decouple, .fork2], s)) ∧
    (s.pidContent = some c → pyInt? c = none →
      start s =
        (.error (.valueError
          ("invalid literal for int() with base 10: " ++ pyStrRepr (pyStrip c))),
         [], s)) := by
  refine ⟨?_, ?_, ?_, ?_⟩
  · intro hc hp
    have hg : getpid s = .ok (some n) := by
      unfold getpid
      rw [hc]
      simp only [hp]
    unfold start
    rw [hg]
  · intro hc hw
    have hg : getpid s = .ok none := by
      unfold getpid
      rw [hc]
    unfold start
    rw [hg, daemonize_ok s hw]
    rfl
  · intro hc hw
    have hg : getpid s = .ok none := by
      unfold getpid
      rw [hc]
    unfold start
    rw [hg, daemonize_fail s hw]
  · intro hc hp
    have hg : getpid s =
        .error (.valueError
          ("invalid literal for int() with base 10: " ++ pyStrRepr (pyStrip c))) := by
      unfold getpid
      rw [hc]
      simp only [hp]
    unfold start
    rw [hg]

/-- C2 witness: start on the running sample state is rejected without
side effects, and start on the stopped sample state daemonizes and
reaches handle_daemon. -/
theorem claim2_witness :
    start sRunning =
      (.error (.consoleError
        ("A pidfile " ++ samplePath
          ++ " already exists. Perhaps the Daemon is already running?")),
       [], sRunning) ∧
    start sStopped =
      (.ok none,
       [.fork1, .decouple, .fork2, .testpidWrite, .testpidRemove,
        .flushStd, .redirect, .registerCleanup, .writePid 4242,
        .handleDaemon],
       { sStopped with pidContent := some "4242\n" }) := by
  constructor
  · exact (claim2_start_precondition sRunning "12" 12).1 rfl (by decide)
  · exact (claim2_start_precondition sStopped "" 0).2.1 rfl rfl

/-- Newline counting distributes over string append. -/
lemma newlineCount_append (a b : String) :
    newlineCount (a ++ b) = newlineCount a + newlineCount b := by
  unfold newlineCount
  rw [String.data_append a b, List.count_append]

/-- C1 counterexample: the claim says that with the traceback option the
error stream receives the diagnostic trace instead of, not in addition
to, the one-line message. The daemon variant writes the trace and then
also the styled one-line message: the stream differs from the trace alone
and still holds the message text. -/
theorem claim1_counterexample :
    DaemonProgram.execute true (.error (.consoleError "boom")) =
      .ok ⟨"", printExc (.consoleError "boom")
                 ++ styleERROR ("Error: " ++ "boom" ++ "\n"), some 1⟩ ∧
    printExc (.consoleError "boom") ++ styleERROR ("Error: " ++ "boom" ++ "\n")
      ≠ printExc (.consoleError "boom") ∧
    0 < pyFind
        (printExc (.consoleError "boom")
          ++ styleERROR ("Error: " ++ "boom" ++ "\n"))
        "Error: boom" := by
  refine ⟨rfl, by decide, by decide⟩

/-- C1 amended: for a ConsoleError escaping handle, with the traceback
option off both variants write exactly the styled one-line message to the
error stream and exit 1; with it on, the generic execute writes the
multi-line trace instead of the message, while the daemon variant writes
the trace and then additionally the one-line message, and both exit 1. -/
theorem claim1_error_reporting (m : String) (hm : newlineCount m = 0) :
    ConsoleProgram.execute false (.error (.consoleError m)) =
      .ok ⟨"", styleERROR ("Error: " ++ m ++ "\n"), some 1⟩ ∧
    newlineCount (styleERROR ("Error: " ++ m ++ "\n")) = 1 ∧
    ConsoleProgram.execute true (.error (.consoleError m)) =
      .ok ⟨"", printExc (.consoleError m), some 1⟩ ∧
    newlineCount (printExc (.consoleError m)) = 2 ∧
    DaemonProgram.execute false (.error (.consoleError m)) =
      .ok ⟨"", styleERROR ("Error: " ++ m ++ "\n"), some 1⟩ ∧
    DaemonProgram.execute true (.error (.consoleError m)) =
      .ok ⟨"", printExc (.consoleError m)
                 ++ styleERROR ("Error: " ++ m ++ "\n"), some 1⟩ := by
  refine ⟨rfl, ?_, rfl, ?_, rfl, rfl⟩
  · unfold styleERROR
    rw [newlineCount_append, newlineCount_append, hm]
    decide
  · have hp : printExc (.consoleError m) =
        "Traceback (most recent call last):\n" ++ "ConsoleError" ++ ": " ++ m ++ "\n" := rfl
    rw [hp, newlineCount_append, newlineCount_append, newlineCount_append,
      newlineCount_append, hm]
    decide

/-- C1 witness: the amended behavior at the message boom. -/
theorem claim1_witness :
    newlineCount "boom" = 0 ∧
    (ConsoleProgram.execute false (.error (.consoleError "boom")) =
       .ok ⟨"", styleERROR ("Error: " ++ "boom" ++ "\n"), some 1⟩ ∧
     newlineCount (styleERROR ("Error: " ++ "boom" ++ "\n")) = 1 ∧
     ConsoleProgram.execute true (.error (.consoleError "boom")) =
       .ok ⟨"", printExc (.consoleError "boom"), some 1⟩ ∧
     newlineCount (printExc (.consoleError "boom")) = 2 ∧
     DaemonProgram.execute false (.error (.consoleError "boom")) =
       .ok ⟨"", styleERROR ("Error: " ++ "boom" ++ "\n"), some 1⟩ ∧
     DaemonProgram.execute true (.error (.consoleError "boom")) =
       .ok ⟨"", printExc (.consoleError "boom")
                  ++ styleERROR ("Error: " ++ "boom" ++ "\n"), some 1⟩) :=
  ⟨by decide, claim1_error_reporting "boom" (by decide)⟩

/-- C9 counterexample: the claim says a trailing separator is appended
only when the returned text does not already end with one. The daemon
variant appends the newline unconditionally: text already ending in a
newline reaches the output stream with a second one. -/
theorem claim9_counterexample :
    DaemonProgram.execute false (.ok (some "hi\n")) =
      .ok ⟨"hi\n" ++ "\n", "", none⟩ ∧
    ("hi\n" ++ "\n" : String) ≠ "hi\n" := by
  refine ⟨rfl, by decide⟩

/-- C9 amended: for non-empty returned text, the generic execute writes
exactly the text to the output stream with nothing appended, while the
daemon variant writes the text followed by exactly one newline whether or
not the text already ends with one; neither writes to the error stream
nor exits. -/
theorem claim9_output_forwarding (o : String) (tb : Bool) (h : o ≠ "") :
    ConsoleProgram.execute tb (.ok (some o)) = .ok ⟨o, "", none⟩ ∧
    DaemonProgram.execute tb (.ok (some o)) = .ok ⟨o ++ "\n", "", none⟩ := by
  have ht : pyTruthy (some o) = true := by
    cases he : o.isEmpty
    · simp [pyTruthy, he]
    · exact absurd ((String.isEmpty_iff o).mp he) h
  constructor
  · unfold ConsoleProgram.execute
    simp [ht]
  · unfold DaemonProgram.execute
    simp [ht]

/-- C9 witness: the amended behavior at the returned text ok. -/
theorem claim9_witness :
    ("ok" : String) ≠ "" ∧
    (ConsoleProgram.execute false (.ok (some "ok")) = .ok ⟨"ok", "", none⟩ ∧
     DaemonProgram.execute false (.ok (some "ok")) = .ok ⟨"ok" ++ "\n", "", none⟩) :=
  ⟨by decide, claim9_output_forwarding "ok" false (by decide)⟩

/-- A start call that returns without raising returns None. -/
lemma start_value_ok (s : Daemon) (v : Option String) (evs : List Ev)
    (s1 : Daemon) (h : start s = (.ok v, evs, s1)) : v = none := by
  unfold start at h
  split at h
  · simp at h
  · simp at h
  · split at h
    · simp at h
    · simp at h
      exact h.1.symm

/-- A stop call that returns without raising returns None. -/
lemma stop_value_ok (s : Daemon) (v : Option String) (evs : List Ev)
    (s1 : Daemon) (h : stop s = (.ok v, evs, s1)) : v = none := by
  unfold stop at h
  split at h
  · simp at h
  · simp at h
  · split at h
    · split at h
      · simp at h
        exact h.1.symm
      · simp at h
        exact h.1.symm
    · simp at h

/-- A restart call that returns without raising returns None. -/
lemma restart_value_ok (s : Daemon) (v : Option String) (evs : List Ev)
    (s1 : Daemon) (h : restart s = (.ok v, evs, s1)) : v = none := by
  unfold restart at h
  split at h
  · simp at h
  · next e evs1 s' heq =>
      split at h
      next r evs2 s2 heq2 =>
        simp at h
        exact start_value_ok _ _ _ _ (h.1 ▸ heq2)

/-- C10: when the daemon dispatch of a single start, stop or restart
argument returns without raising, the returned value is None, so the
output-writing branch of the daemon execute writes nothing to the output
stream, writes nothing to the error stream, and does not exit. -/
theorem claim10_actions_return_none (s : Daemon) (a : String)
    (v : Option String) (evs : List Ev) (s1 : Daemon) (tb : Bool)
    (ha : a = "start" ∨ a = "stop" ∨ a = "restart")
    (h : DaemonProgram.handle [a] s = (.ok v, evs, s1)) :
    v = none ∧
    DaemonProgram.execute tb (.ok v) = .ok ⟨"", "", none⟩ := by
  have hv : v = none := by
    rcases ha with rfl | rfl | rfl
    · exact start_value_ok s v evs s1 h
    · exact stop_value_ok s v evs s1 h
    · exact restart_value_ok s v evs s1 h
  subst hv
  exact ⟨rfl, rfl⟩

/-- C10 witness: stop on the running sample state returns None and the
daemon execute then writes nothing and does not exit. -/
theorem claim10_witness :
    DaemonProgram.handle ["stop"] sRunning =
      (.ok none, killLoop 12 2 ++ [.removePid],
       { sRunning with pidContent := none }) ∧
    ((none : Option String) = none ∧
     DaemonProgram.execute false (.ok none) = .ok ⟨"", "", none⟩) := by
  refine ⟨rfl, ?_⟩
  exact claim10_actions_return_none sRunning "stop" none
    (killLoop 12 2 ++ [Ev.removePid]) { sRunning with pidContent := none } false
    (Or.inr (Or.inl rfl)) (by rfl)

/-- Each unreadable path contributes its diagnostic line to the per-path
outcomes. -/
lemma fp_lines_mem_invalid (readable : String → Bool)
    (hook : String → Option String) (label : String) (paths : List String)
    (p : String) (hp : p ∈ paths) (hr : readable p = false) :
    (p ++ " is not a valid " ++ label ++ ".")
      ∈ FilePathCommand.lines readable hook label paths := by
  induction paths with
  | nil => cases hp
  | cons q qs ih =>
      rcases List.mem_cons.mp hp with rfl | hmem
      · unfold FilePathCommand.lines check_path
        rw [hr]
        simp
      · unfold FilePathCommand.lines check_path
        cases hrq : readable q
        · simp only [hrq, Bool.not_false, if_pos]
          exact List.mem_cons_of_mem _ (ih hmem)
        · simp only [hrq, Bool.not_true, Bool.false_eq_true, if_false]
          cases hh : hook q with
          | none => exact ih hmem
          | some o =>
              cases ho : o.isEmpty
              · simp only [ho, Bool.not_false, if_pos]
                exact List.mem_cons_of_mem _ (ih hmem)
              · simp only [ho, Bool.not_true, Bool.false_eq_true, if_false]
                exact ih hmem

/-- Each readable path whose hook output is truthy contributes that
output to the per-path outcomes. -/
lemma fp_lines_mem_output (readable : String → Bool)
    (hook : String → Option String) (label : String) (paths : List String)
    (p : String) (o : String) (hp : p ∈ paths) (hr : readable p = true)
    (hh : hook p = some o) (ho : o.isEmpty = false) :
    o ∈ FilePathCommand.lines readable hook label paths := by
  induction paths with
  | nil => cases hp
  | cons q qs ih =>
      rcases List.mem_cons.mp hp with rfl | hmem
      · unfold FilePathCommand.lines check_path
        rw [hr, hh]
        simp [ho]
      · unfold FilePathCommand.lines check_path
        cases hrq : readable q
        · simp only [hrq, Bool.not_false, if_pos]
          exact List.mem_cons_of_mem _ (ih hmem)
        · simp only [hrq, Bool.not_true, Bool.false_eq_true, if_false]
          cases hhq : hook q with
          | none => exact ih hmem
          | some oq =>
              cases hoq : oq.isEmpty
              · simp only [hoq, Bool.not_false, if_pos]
                exact List.mem_cons_of_mem _ (ih hmem)
              · simp only [hoq, Bool.not_true, Bool.false_eq_true, if_false]
                exact ih hmem

/-- C8: given at least one path, the file-path variant returns one
combined newline-joined report of the per-path outcomes (an unreadable
path is never fatal to the batch), in which every unreadable path
appears as its fixed diagnostic line and every readable path with truthy
hook output appears as that output. -/
theorem claim8_filepath_batch_report (readable : String → Bool)
    (hook : String → Option String) (label : String) (paths : List String)
    (h : paths ≠ []) :
    FilePathCommand.handle readable hook label paths =
      .ok (String.intercalate "\n"
        (FilePathCommand.lines readable hook label paths ++ [""])) ∧
    (∀ p ∈ paths, readable p = false →
      (p ++ " is not a valid " ++ label ++ ".")
        ∈ FilePathCommand.lines readable hook label paths) ∧
    (∀ p ∈ paths, readable p = true →
      ∀ o : String, hook p = some o → o.isEmpty = false →
        o ∈ FilePathCommand.lines readable hook label paths) := by
  refine ⟨?_, ?_, ?_⟩
  · unfold FilePathCommand.handle
    cases paths with
    | nil => exact absurd rfl h
    | cons q qs => rfl
  · intro p hp hr
    exact fp_lines_mem_invalid readable hook label paths p hp hr
  · intro p hp hr o hh ho
    exact fp_lines_mem_output readable hook label paths p o hp hr hh ho

/-- C8 witness: with one unreadable and one readable path the handle
returns the combined report, holding the diagnostic line for the first
and the hook output for the second. -/
theorem claim8_witness :
    (["/nonexistent/path", "/tmp/real-file"] ≠ ([] : List String)) ∧
    (FilePathCommand.handle (fun p => p == "/tmp/real-file")
        (fun p => some ("loaded " ++ p)) "path"
        ["/nonexistent/path", "/tmp/real-file"] =
      .ok (String.intercalate "\n"
        (FilePathCommand.lines (fun p => p == "/tmp/real-file")
          (fun p => some ("loaded " ++ p)) "path"
          ["/nonexistent/path", "/tmp/real-file"] ++ [""])) ∧
     (∀ p ∈ ["/nonexistent/path", "/tmp/real-file"],
       (fun p => p == "/tmp/real-file") p = false →
       (p ++ " is not a valid " ++ "path" ++ ".")
         ∈ FilePathCommand.lines (fun p => p == "/tmp/real-file")
             (fun p => some ("loaded " ++ p)) "path"
             ["/nonexistent/path", "/tmp/real-file"]) ∧
     (∀ p ∈ ["/nonexistent/path", "/tmp/real-file"],
       (fun p => p == "/tmp/real-file") p = true →
       ∀ o : String, (fun p => some ("loaded " ++ p)) p = some o →
         o.isEmpty = false →
         o ∈ FilePathCommand.lines (fun p => p == "/tmp/real-file")
               (fun p => some ("loaded " ++ p)) "path"
               ["/nonexistent/path", "/tmp/real-file"])) :=
  ⟨by decide,
   claim8_filepath_batch_report (fun p => p == "/tmp/real-file")
     (fun p => some ("loaded " ++ p)) "path"
     ["/nonexistent/path", "/tmp/real-file"] (by decide)⟩

end SimpleConsole
